import Mathlib

/-!
Verification of the stonks-boss repository: a shallow embedding of the
ticker-resolution, ticker-validation, Bollinger-band and command-handler
code, together with theorems settling the specification claims.

Price series are embedded as lists of rationals (the Close column of the
downloaded frame, ordered ascending by timestamp).  Missing values (NaN
produced by pandas rolling windows that are not yet fully populated) are
embedded as `none`.  The sample standard deviation is a real number
(square root of the rational sample variance), so band columns live in
`Option ℝ`.
-/

/-- Embedding of the exchange suffix table from cogs/utils.py. -/
def exchange_suffixes : List (String × String) :=
  [("NYSE", ""),
   ("NASDAQ", ""),
   ("Euronext Paris", ".PA"),
   ("BÃ¶rse Frankfurt", ".F"),
   ("London Stock Exchange", ".L"),
   ("BSE", ".BO"),
   ("Tokyo Stock Exchange", ".T"),
   ("Toronto Stock Exchange", ".TO"),
   ("Hong Kong Stock Exchange", ".HK")]

/-- Embedding of get_full_ticker from cogs/utils.py: append the suffix
looked up in the exchange table, defaulting to the empty suffix. -/
def get_full_ticker (ticker exchange : String) : String :=
  ticker ++ ((exchange_suffixes.lookup exchange).getD "")

/-- Result of the provider metadata lookup used by ticker validation:
either the lookup throws, or it returns an info dictionary that may be
absent (None) and is otherwise a string-keyed record. -/
inductive InfoResult where
  | throws
  | ok (info : Option (List (String × String)))

/-- Embedding of is_valid_ticker from cogs/utils.py: true exactly when the
provider info is non-null, has a symbol key, and that symbol equals the
uppercased input ticker; any provider exception yields false. -/
def is_valid_ticker (ticker : String) (r : InfoResult) : Bool :=
  match r with
  | .throws => false
  | .ok none => false
  | .ok (some d) =>
      (d.lookup "symbol").isSome && ((d.lookup "symbol") == some ticker.toUpper)

/-- Embedding of the FinanceCog.is_valid_ticker method from
cogs/finance_cog.py (same checks as the standalone utils variant). -/
def FinanceCog.is_valid_ticker (ticker : String) (r : InfoResult) : Bool :=
  match r with
  | .throws => false
  | .ok none => false
  | .ok (some d) =>
      (d.lookup "symbol").isSome && ((d.lookup "symbol") == some ticker.toUpper)

/-- Arithmetic mean of a list of prices, as computed by pandas mean over a
rolling window slice. -/
def seriesMean (ys : List ℚ) : ℚ := ys.sum / (ys.length : ℚ)

/-- Sample variance with ddof equal to one, the pandas default used by the
rolling std call in both get_bollinger_bands variants. -/
def sampleVar (ys : List ℚ) : ℚ :=
  (ys.map (fun y => (y - seriesMean ys) ^ 2)).sum / ((ys.length : ℚ) - 1)

/-- The window of observations ending at index i that a pandas rolling
window of size w sees: positions i+1-w up to i. -/
def windowSlice (xs : List ℚ) (w i : ℕ) : List ℚ :=
  (xs.take (i + 1)).drop (i + 1 - w)

/-- Rolling application of a statistic with window w: defined (some) only
at indices whose window is fully populated, NaN (none) before that, which
is the pandas behaviour with the default min_periods. -/
def rollingApply (f : List ℚ → ℚ) (w : ℕ) (xs : List ℚ) : List (Option ℚ) :=
  (List.range xs.length).map
    (fun i => if w ≤ i + 1 then some (f (windowSlice xs w i)) else none)

/-- Embedding of Close.rolling(window=w).mean(). -/
def rollingMean (w : ℕ) (xs : List ℚ) : List (Option ℚ) :=
  rollingApply seriesMean w xs

/-- Rolling sample variance, the square of the rolling std column. -/
def rollingVar (w : ℕ) (xs : List ℚ) : List (Option ℚ) :=
  rollingApply sampleVar w xs

/-- Embedding of Close.rolling(window=w).std(): the square root of the
rolling sample variance. -/
noncomputable def rollingStd (w : ℕ) (xs : List ℚ) : List (Option ℝ) :=
  (rollingVar w xs).map (fun v => v.map (fun q => Real.sqrt (q : ℝ)))

/-- Pointwise combination building the Upper Band column: MA + STD * 2,
NaN when either operand is NaN. -/
def bandUpper (m : Option ℚ) (s : Option ℝ) : Option ℝ :=
  match m, s with
  | some mv, some sv => some ((mv : ℝ) + sv * 2)
  | _, _ => none

/-- Pointwise combination building the Lower Band column: MA - STD * 2,
NaN when either operand is NaN. -/
def bandLower (m : Option ℚ) (s : Option ℝ) : Option ℝ :=
  match m, s with
  | some mv, some sv => some ((mv : ℝ) - sv * 2)
  | _, _ => none

/-- The columns the get_bollinger_bands code assigns to the data frame. -/
structure BollingerFrame where
  close : List ℚ
  ma : List (Option ℚ)
  std : List (Option ℝ)
  upperBand : List (Option ℝ)
  lowerBand : List (Option ℝ)

/-- Embedding of the column assignments in get_bollinger_bands
(cogs/analysis.py lines 148 to 154, identical in cogs/finance_cog.py):
MA and STD are 20-period rolling statistics of Close and the bands are
MA plus or minus STD times 2. -/
noncomputable def computeBands (xs : List ℚ) : BollingerFrame :=
  { close := xs
    ma := rollingMean 20 xs
    std := rollingStd 20 xs
    upperBand := List.zipWith bandUpper (rollingMean 20 xs) (rollingStd 20 xs)
    lowerBand := List.zipWith bandLower (rollingMean 20 xs) (rollingStd 20 xs) }

/-- Row slice keeping the trailing k rows of every column, embedding the
python frame slicing with a negative start index. -/
noncomputable def frameTail (k : ℕ) (f : BollingerFrame) : BollingerFrame :=
  { close := f.close.drop (f.close.length - k)
    ma := f.ma.drop (f.ma.length - k)
    std := f.std.drop (f.std.length - k)
    upperBand := f.upperBand.drop (f.upperBand.length - k)
    lowerBand := f.lowerBand.drop (f.lowerBand.length - k) }

/-- Round-half-to-even on the integer grid, the tie-breaking rule of the
python round builtin. -/
noncomputable def roundHalfEven (y : ℝ) : ℤ :=
  if Int.fract y < 1 / 2 then ⌊y⌋
  else if 1 / 2 < Int.fract y then ⌊y⌋ + 1
  else if Even ⌊y⌋ then ⌊y⌋ else ⌊y⌋ + 1

/-- Embedding of round(v, 2) from the python standard library. -/
noncomputable def pyRound2 (x : ℝ) : ℝ := ((roundHalfEven (x * 100) : ℤ) : ℝ) / 100

/-- Embedding of AnalysisCog.get_bollinger_bands (cogs/analysis.py lines
132 to 169) as a function of the downloaded Close series: raise when the
download is empty, otherwise trim to the trailing 40 rows, compute the
band columns, round the last row of the Close, Upper Band and Lower Band
columns to two decimals for the latest record, and also return the
trailing 20 rows of the frame for charting. -/
noncomputable def AnalysisCog.get_bollinger_bands (prices : List ℚ) :
    Except String (List (String × Option ℝ) × BollingerFrame) :=
  if prices.isEmpty then
    .error "Failed to fetch data: No data found for the specified ticker."
  else
    let tr := prices.drop (prices.length - 40)
    let f := computeBands tr
    let m := tr.length
    let latest : List (String × Option ℝ) :=
      [("Close", some (pyRound2 ((tr.getD (m - 1) 0 : ℚ) : ℝ))),
       ("Upper Band", (f.upperBand.getD (m - 1) none).map pyRound2),
       ("Lower Band", (f.lowerBand.getD (m - 1) none).map pyRound2)]
    .ok (latest, frameTail 20 f)

/-- Embedding of FinanceCog.get_bollinger_bands (cogs/finance_cog.py lines
224 to 239) as a function of the downloaded Close series: no length or
emptiness check, no rounding; the last row of the Close, Upper Band and
Lower Band columns is rendered for display (none for an empty frame). -/
noncomputable def FinanceCog.get_bollinger_bands (prices : List ℚ) :
    Option (ℚ × Option ℝ × Option ℝ) :=
  if prices.isEmpty then none
  else
    let f := computeBands prices
    let m := prices.length
    some (prices.getD (m - 1) 0,
          f.upperBand.getD (m - 1) none,
          f.lowerBand.getD (m - 1) none)

/-- The concrete twenty-day test series 1, 2, ..., 20 used by the
numerical specification example. -/
def seriesOneToTwenty : List ℚ :=
  [1, 2, 3, 4, 5, 6, 7, 8, 9, 10, 11, 12, 13, 14, 15, 16, 17, 18, 19, 20]

/-- Observable actions a command handler performs, in order: the initial
deferred acknowledgment, the validation lookup, outbound text replies,
historical-data fetches, indicator computation, chart rendering, the
metadata and current-price fetches of the price command, and the final
embed-with-file reply. -/
inductive Act where
  | deferReply
  | validateTicker (t : String)
  | sendText (m : String)
  | fetchHist (t : String)
  | computeIndicator
  | renderGraph
  | fetchCurrent (t : String)
  | fetchInfo (t : String)
  | sendEmbedFile
deriving DecidableEq

/-- Predicate selecting historical-data fetch actions. -/
def Act.isFetchHist : Act → Bool
  | .fetchHist _ => true
  | _ => false

/-- Predicate selecting current-price history fetch actions. -/
def Act.isFetchCurrent : Act → Bool
  | .fetchCurrent _ => true
  | _ => false

/-- Predicate selecting metadata fetch actions. -/
def Act.isFetchInfo : Act → Bool
  | .fetchInfo _ => true
  | _ => false

/-- Predicate selecting reply actions sent back to the requester. -/
def Act.isReply : Act → Bool
  | .sendText _ => true
  | .sendEmbedFile => true
  | _ => false

/-- Invalid-ticker reply of the bollinger, analytics and basic_info
handlers. -/
def invalidTickerMsg (t : String) : String :=
  "The ticker " ++ t ++ " is not valid. Please check and try again."

/-- Invalid-ticker reply of the two price handlers. -/
def missingTickerMsg (t : String) : String :=
  "The ticker " ++ t ++ " does not exist. Please check and try again."

/-- Generic catch-all reply wrapping the exception text. -/
def errorReply (e : String) : String := "An error occurred: " ++ e

/-- Message of the exception raised for an empty download. -/
def noDataMsg : String := "No data found for the specified ticker."

/-- Prefix added when get_bollinger_bands re-raises a download failure. -/
def fetchFailMsg (e : String) : String := "Failed to fetch data: " ++ e

/-- Trace of the AnalysisCog.bollinger slash command (cogs/analysis.py
lines 51 to 91): defer, resolve the full ticker, validate, and short
circuit with an invalid message; otherwise fetch history, compute the
bands, render the graph, and reply, any exception being caught and
reported with the generic error reply. -/
def AnalysisCog.bollinger (ticker exchange : String)
    (validLookup : String → Bool) (hist : Except String (List ℚ))
    (renderRes : Except String Unit) : List Act :=
  let t := get_full_ticker ticker exchange
  Act.deferReply :: Act.validateTicker t ::
    (if validLookup t then
      Act.fetchHist t ::
        (match hist with
         | .error e => [Act.sendText (errorReply (fetchFailMsg e))]
         | .ok prices =>
            if prices.isEmpty then
              [Act.sendText (errorReply (fetchFailMsg noDataMsg))]
            else
              Act.computeIndicator :: Act.renderGraph ::
                (match renderRes with
                 | .error e => [Act.sendText (errorReply e)]
                 | .ok _ => [Act.sendEmbedFile]))
     else [Act.sendText (invalidTickerMsg t)])

/-- Trace of the StocksCog.price slash command (cogs/stocks.py lines 80 to
126): defer, resolve, validate and short circuit on an invalid ticker;
otherwise render the price graph from fetched history, fetch the current
price, fetch the market-cap metadata, and reply, any exception being
caught and reported with the generic error reply. -/
def StocksCog.price (ticker period exchange : String)
    (validLookup : String → Bool) (graphRes : Except String Unit)
    (priceRes : Except String ℚ) (capRes : Except String ℚ) : List Act :=
  let t := get_full_ticker ticker exchange
  Act.deferReply :: Act.validateTicker t ::
    (if validLookup t then
      Act.fetchHist t :: Act.renderGraph ::
        (match graphRes with
         | .error e => [Act.sendText (errorReply e)]
         | .ok _ =>
            Act.fetchCurrent t ::
              (match priceRes with
               | .error e => [Act.sendText (errorReply e)]
               | .ok _ =>
                  Act.fetchInfo t ::
                    (match capRes with
                     | .error e => [Act.sendText (errorReply e)]
                     | .ok _ => [Act.sendEmbedFile])))
     else [Act.sendText (missingTickerMsg t)])

/-- Trace of the FinanceCog.price slash command (cogs/finance_cog.py lines
50 to 90): same shape as StocksCog.price but with the raw ticker, no
exchange resolution. -/
def FinanceCog.price (ticker : String) (validLookup : String → Bool)
    (graphRes : Except String Unit) (priceRes : Except String ℚ)
    (capRes : Except String ℚ) : List Act :=
  Act.deferReply :: Act.validateTicker ticker ::
    (if validLookup ticker then
      Act.fetchHist ticker :: Act.renderGraph ::
        (match graphRes with
         | .error e => [Act.sendText (errorReply e)]
         | .ok _ =>
            Act.fetchCurrent ticker ::
              (match priceRes with
               | .error e => [Act.sendText (errorReply e)]
               | .ok _ =>
                  Act.fetchInfo ticker ::
                    (match capRes with
                     | .error e => [Act.sendText (errorReply e)]
                     | .ok _ => [Act.sendEmbedFile])))
     else [Act.sendText (missingTickerMsg ticker)])

/-- Trace of the FinanceCog.bollinger slash command (cogs/finance_cog.py
lines 126 to 139): defer, validate, short circuit on an invalid ticker;
otherwise fetch history, compute the bands and reply with their text. -/
def FinanceCog.bollinger (ticker : String) (validLookup : String → Bool)
    (hist : Except String (List ℚ)) : List Act :=
  Act.deferReply :: Act.validateTicker ticker ::
    (if validLookup ticker then
      Act.fetchHist ticker ::
        (match hist with
         | .error e => [Act.sendText (errorReply e)]
         | .ok _ => [Act.computeIndicator, Act.sendText "Bollinger Bands"])
     else [Act.sendText (invalidTickerMsg ticker)])

/-- Shared mutable state a cog object carries: the process-wide HTTP
session.  The python handlers never assign to it. -/
structure CogState (σ : Type) where
  session : σ

/-- AnalysisCog.bollinger together with the cog state it leaves behind:
the handler body contains no assignment to shared state, so the state
passes through unchanged. -/
def AnalysisCog.bollingerRun {σ : Type} (c : CogState σ)
    (ticker exchange : String) (validLookup : String → Bool)
    (hist : Except String (List ℚ)) (renderRes : Except String Unit) :
    CogState σ × List Act :=
  (c, AnalysisCog.bollinger ticker exchange validLookup hist renderRes)

/-- StocksCog.price together with the cog state it leaves behind. -/
def StocksCog.priceRun {σ : Type} (c : CogState σ)
    (ticker period exchange : String) (validLookup : String → Bool)
    (graphRes : Except String Unit) (priceRes capRes : Except String ℚ) :
    CogState σ × List Act :=
  (c, StocksCog.price ticker period exchange validLookup graphRes priceRes capRes)

/-- FinanceCog.price together with the cog state it leaves behind. -/
def FinanceCog.priceRun {σ : Type} (c : CogState σ) (ticker : String)
    (validLookup : String → Bool) (graphRes : Except String Unit)
    (priceRes capRes : Except String ℚ) : CogState σ × List Act :=
  (c, FinanceCog.price ticker validLookup graphRes priceRes capRes)

/-- File lifecycle of StocksCog.get_price_graph (cogs/stocks.py lines 188
to 242): a temporary GIF is created with delete set to False, the
animation is saved into it, the file is read back into memory and only
then removed.  The function returns the outcome together with whether the
temporary file is still on disk afterwards; there is no finally block, so
a failure while saving or reading leaves the file behind. -/
def StocksCog.get_price_graph (saveRes readRes : Except String Unit) :
    Except String Unit × Bool :=
  match saveRes with
  | .error e => (.error e, true)
  | .ok _ =>
      match readRes with
      | .error e => (.error e, true)
      | .ok _ => (.ok (), false)

/-- File lifecycle of FinanceCog.get_price_graph (cogs/finance_cog.py
lines 166 to 216), identical to the StocksCog variant. -/
def FinanceCog.get_price_graph (saveRes readRes : Except String Unit) :
    Except String Unit × Bool :=
  match saveRes with
  | .error e => (.error e, true)
  | .ok _ =>
      match readRes with
      | .error e => (.error e, true)
      | .ok _ => (.ok (), false)

/-- Claim C4: ticker resolution appends the static suffix from the fixed
exchange table to the raw symbol: NYSE and NASDAQ add no suffix, the
Tokyo Stock Exchange adds .T, Euronext Paris adds .PA, and in particular
AAPL on NYSE resolves to AAPL and 7203 on the Tokyo Stock Exchange
resolves to 7203.T. -/
theorem get_full_ticker_suffix (s : String) :
    get_full_ticker s "NYSE" = s ∧
    get_full_ticker s "NASDAQ" = s ∧
    get_full_ticker s "Tokyo Stock Exchange" = s ++ ".T" ∧
    get_full_ticker s "Euronext Paris" = s ++ ".PA" ∧
    get_full_ticker "AAPL" "NYSE" = "AAPL" ∧
    get_full_ticker "7203" "Tokyo Stock Exchange" = "7203.T" := by
  refine ⟨?_, ?_, ?_, ?_, rfl, rfl⟩ <;>
    simp [get_full_ticker, exchange_suffixes, List.lookup]

/-- Claim C10: the standalone is_valid_ticker in cogs/utils.py and the
FinanceCog.is_valid_ticker method are extensionally equal predicates:
both return true exactly when the provider info is non-null, contains a
symbol key, and that symbol equals the uppercased input ticker, and both
return false rather than raising when the provider lookup throws. -/
theorem ticker_validation_variants_agree (t : String) (r : InfoResult) :
    is_valid_ticker t r = FinanceCog.is_valid_ticker t r ∧
    (is_valid_ticker t r = true ↔
      ∃ d, r = .ok (some d) ∧ d.lookup "symbol" = some t.toUpper) ∧
    is_valid_ticker t .throws = false := by
  refine ⟨rfl, ?_, rfl⟩
  cases r with
  | throws => simp [is_valid_ticker]
  | ok info =>
    cases info with
    | none => simp [is_valid_ticker]
    | some d =>
      simp only [is_valid_ticker, Bool.and_eq_true, beq_iff_eq,
        Option.isSome_iff_exists]
      constructor
      · rintro ⟨-, h⟩
        exact ⟨d, rfl, h⟩
      · rintro ⟨d2, hd, h⟩
        simp only [InfoResult.ok.injEq, Option.some.injEq] at hd
        subst hd
        exact ⟨⟨_, h⟩, h⟩

/-- Claim C6: the Bollinger calculator is deterministic and free of
hidden mutable state: two invocations on the same input series yield
identical output, both for the latest record together with the trailing
slice and for the full band columns. -/
theorem bollinger_deterministic (xs ys : List ℚ) (h : xs = ys) :
    AnalysisCog.get_bollinger_bands xs = AnalysisCog.get_bollinger_bands ys ∧
    computeBands xs = computeBands ys := by
  subst h
  exact ⟨rfl, rfl⟩

/-- Witness for claim C6 at a concrete three-day series. -/
theorem bollinger_deterministic_witness :
    [(1 : ℚ), 2, 3] = [(1 : ℚ), 2, 3] ∧
    (AnalysisCog.get_bollinger_bands [(1 : ℚ), 2, 3] =
        AnalysisCog.get_bollinger_bands [(1 : ℚ), 2, 3] ∧
      computeBands [(1 : ℚ), 2, 3] = computeBands [(1 : ℚ), 2, 3]) :=
  ⟨rfl, bollinger_deterministic [(1 : ℚ), 2, 3] [(1 : ℚ), 2, 3] rfl⟩

/-- Claim C9 evaluated on the code: the temporary GIF of the two
get_price_graph variants is removed when saving and reading both succeed,
but when the animation save or the read back fails the function exits
with the temporary file still on disk, because the removal only runs on
the success path. -/
theorem price_graph_temp_file_leak :
    (StocksCog.get_price_graph (.ok ()) (.ok ())).2 = false ∧
    (FinanceCog.get_price_graph (.ok ()) (.ok ())).2 = false ∧
    (StocksCog.get_price_graph (.error "animation save failed") (.ok ())).2 = true ∧
    (StocksCog.get_price_graph (.error "animation save failed") (.ok ())).1 =
      .error "animation save failed" ∧
    (FinanceCog.get_price_graph (.error "animation save failed") (.ok ())).2 = true ∧
    (StocksCog.get_price_graph (.ok ()) (.error "temp file read failed")).2 = true :=
  ⟨rfl, rfl, rfl, rfl, rfl, rfl⟩

/-- Claim C5: a command invocation whose ticker fails validation sends an
invalid-ticker message and returns at once: the trace consists only of
the deferred acknowledgment, the validation lookup and the invalid
message, and contains no historical-data fetch, no indicator computation
and no chart rendering. -/
theorem invalid_ticker_short_circuits (ticker period exchange : String)
    (validLookup : String → Bool) (hist : Except String (List ℚ))
    (renderRes graphRes : Except String Unit) (priceRes capRes : Except String ℚ)
    (hA : validLookup (get_full_ticker ticker exchange) = false)
    (hF : validLookup ticker = false) :
    AnalysisCog.bollinger ticker exchange validLookup hist renderRes =
      [Act.deferReply, Act.validateTicker (get_full_ticker ticker exchange),
       Act.sendText (invalidTickerMsg (get_full_ticker ticker exchange))] ∧
    StocksCog.price ticker period exchange validLookup graphRes priceRes capRes =
      [Act.deferReply, Act.validateTicker (get_full_ticker ticker exchange),
       Act.sendText (missingTickerMsg (get_full_ticker ticker exchange))] ∧
    FinanceCog.bollinger ticker validLookup hist =
      [Act.deferReply, Act.validateTicker ticker,
       Act.sendText (invalidTickerMsg ticker)] ∧
    (∀ a ∈ AnalysisCog.bollinger ticker exchange validLookup hist renderRes,
      a.isFetchHist = false ∧ a ≠ Act.computeIndicator ∧ a ≠ Act.renderGraph) ∧
    (∀ a ∈ StocksCog.price ticker period exchange validLookup graphRes priceRes capRes,
      a.isFetchHist = false ∧ a.isFetchCurrent = false ∧ a.isFetchInfo = false ∧
        a ≠ Act.renderGraph) ∧
    (∀ a ∈ FinanceCog.bollinger ticker validLookup hist,
      a.isFetchHist = false ∧ a ≠ Act.computeIndicator) := by
  have e1 : AnalysisCog.bollinger ticker exchange validLookup hist renderRes =
      [Act.deferReply, Act.validateTicker (get_full_ticker ticker exchange),
       Act.sendText (invalidTickerMsg (get_full_ticker ticker exchange))] := by
    simp [AnalysisCog.bollinger, hA]
  have e2 : StocksCog.price ticker period exchange validLookup graphRes priceRes capRes =
      [Act.deferReply, Act.validateTicker (get_full_ticker ticker exchange),
       Act.sendText (missingTickerMsg (get_full_ticker ticker exchange))] := by
    simp [StocksCog.price, hA]
  have e3 : FinanceCog.bollinger ticker validLookup hist =
      [Act.deferReply, Act.validateTicker ticker,
       Act.sendText (invalidTickerMsg ticker)] := by
    simp [FinanceCog.bollinger, hF]
  refine ⟨e1, e2, e3, ?_, ?_, ?_⟩
  · rw [e1]
    intro a ha
    simp only [List.mem_cons, List.not_mem_nil, or_false] at ha
    rcases ha with rfl | rfl | rfl <;> simp [Act.isFetchHist]
  · rw [e2]
    intro a ha
    simp only [List.mem_cons, List.not_mem_nil, or_false] at ha
    rcases ha with rfl | rfl | rfl <;>
      simp [Act.isFetchHist, Act.isFetchCurrent, Act.isFetchInfo]
  · rw [e3]
    intro a ha
    simp only [List.mem_cons, List.not_mem_nil, or_false] at ha
    rcases ha with rfl | rfl | rfl <;> simp [Act.isFetchHist]

/-- Witness for claim C5 at concrete arguments with a rejecting
validator. -/
theorem invalid_ticker_short_circuits_witness :
    Function.const String false (get_full_ticker "AAPL" "NYSE") = false ∧
    Function.const String false "AAPL" = false ∧
    (AnalysisCog.bollinger "AAPL" "NYSE" (Function.const String false)
        (.ok []) (.ok ()) =
      [Act.deferReply, Act.validateTicker (get_full_ticker "AAPL" "NYSE"),
       Act.sendText (invalidTickerMsg (get_full_ticker "AAPL" "NYSE"))] ∧
     StocksCog.price "AAPL" "1mo" "NYSE" (Function.const String false)
        (.ok ()) (.ok 0) (.ok 0) =
      [Act.deferReply, Act.validateTicker (get_full_ticker "AAPL" "NYSE"),
       Act.sendText (missingTickerMsg (get_full_ticker "AAPL" "NYSE"))] ∧
     FinanceCog.bollinger "AAPL" (Function.const String false) (.ok []) =
      [Act.deferReply, Act.validateTicker "AAPL",
       Act.sendText (invalidTickerMsg "AAPL")]) := by
  refine ⟨rfl, rfl, ?_⟩
  have h := invalid_ticker_short_circuits "AAPL" "1mo" "NYSE"
    (Function.const String false) (.ok []) (.ok ()) (.ok ()) (.ok 0) (.ok 0)
    rfl rfl
  exact ⟨h.1, h.2.1, h.2.2.1⟩

/-- Claim C8: with a valid ticker, an exception raised in the fetch,
compute or render phase of a user-facing handler is caught at the handler
boundary: the trace ends with a single human-readable error reply, no
fetch appears twice (no retry), the handler returns a trace rather than
propagating, and the cog state comes back unchanged. -/
theorem handlers_catch_all_errors {σ : Type} (c : CogState σ)
    (ticker period exchange e : String) (validLookup : String → Bool)
    (prices : List ℚ) (priceRes capRes : Except String ℚ)
    (hA : validLookup (get_full_ticker ticker exchange) = true)
    (hF : validLookup ticker = true)
    (hne : prices.isEmpty = false) :
    AnalysisCog.bollinger ticker exchange validLookup (.error e) (.ok ()) =
      [Act.deferReply, Act.validateTicker (get_full_ticker ticker exchange),
       Act.fetchHist (get_full_ticker ticker exchange),
       Act.sendText (errorReply (fetchFailMsg e))] ∧
    AnalysisCog.bollinger ticker exchange validLookup (.ok prices) (.error e) =
      [Act.deferReply, Act.validateTicker (get_full_ticker ticker exchange),
       Act.fetchHist (get_full_ticker ticker exchange),
       Act.computeIndicator, Act.renderGraph, Act.sendText (errorReply e)] ∧
    StocksCog.price ticker period exchange validLookup (.error e) priceRes capRes =
      [Act.deferReply, Act.validateTicker (get_full_ticker ticker exchange),
       Act.fetchHist (get_full_ticker ticker exchange), Act.renderGraph,
       Act.sendText (errorReply e)] ∧
    StocksCog.price ticker period exchange validLookup (.ok ()) (.error e) capRes =
      [Act.deferReply, Act.validateTicker (get_full_ticker ticker exchange),
       Act.fetchHist (get_full_ticker ticker exchange), Act.renderGraph,
       Act.fetchCurrent (get_full_ticker ticker exchange),
       Act.sendText (errorReply e)] ∧
    FinanceCog.price ticker validLookup (.error e) priceRes capRes =
      [Act.deferReply, Act.validateTicker ticker, Act.fetchHist ticker,
       Act.renderGraph, Act.sendText (errorReply e)] ∧
    (AnalysisCog.bollinger ticker exchange validLookup (.error e)
        (.ok ())).countP (fun a => a.isReply) = 1 ∧
    (AnalysisCog.bollinger ticker exchange validLookup (.error e)
        (.ok ())).getLast? = some (Act.sendText (errorReply (fetchFailMsg e))) ∧
    (AnalysisCog.bollinger ticker exchange validLookup (.error e)
        (.ok ())).countP (fun a => a.isFetchHist) = 1 ∧
    (StocksCog.price ticker period exchange validLookup (.error e) priceRes
        capRes).countP (fun a => a.isReply) = 1 ∧
    (StocksCog.price ticker period exchange validLookup (.error e) priceRes
        capRes).getLast? = some (Act.sendText (errorReply e)) ∧
    (StocksCog.price ticker period exchange validLookup (.error e) priceRes
        capRes).countP (fun a => a.isFetchHist) = 1 ∧
    (FinanceCog.price ticker validLookup (.error e) priceRes
        capRes).countP (fun a => a.isReply) = 1 ∧
    (FinanceCog.price ticker validLookup (.error e) priceRes
        capRes).getLast? = some (Act.sendText (errorReply e)) ∧
    (AnalysisCog.bollingerRun c ticker exchange validLookup (.error e)
        (.ok ())).1 = c ∧
    (StocksCog.priceRun c ticker period exchange validLookup (.error e)
        priceRes capRes).1 = c ∧
    (FinanceCog.priceRun c ticker validLookup (.error e) priceRes capRes).1 = c := by
  have e1 : AnalysisCog.bollinger ticker exchange validLookup (.error e) (.ok ()) =
      [Act.deferReply, Act.validateTicker (get_full_ticker ticker exchange),
       Act.fetchHist (get_full_ticker ticker exchange),
       Act.sendText (errorReply (fetchFailMsg e))] := by
    simp [AnalysisCog.bollinger, hA]
  have e2 : AnalysisCog.bollinger ticker exchange validLookup (.ok prices) (.error e) =
      [Act.deferReply, Act.validateTicker (get_full_ticker ticker exchange),
       Act.fetchHist (get_full_ticker ticker exchange),
       Act.computeIndicator, Act.renderGraph, Act.sendText (errorReply e)] := by
    simp [AnalysisCog.bollinger, hA, hne]
  have e3 : StocksCog.price ticker period exchange validLookup (.error e) priceRes capRes =
      [Act.deferReply, Act.validateTicker (get_full_ticker ticker exchange),
       Act.fetchHist (get_full_ticker ticker exchange), Act.renderGraph,
       Act.sendText (errorReply e)] := by
    simp [StocksCog.price, hA]
  have e4 : StocksCog.price ticker period exchange validLookup (.ok ()) (.error e) capRes =
      [Act.deferReply, Act.validateTicker (get_full_ticker ticker exchange),
       Act.fetchHist (get_full_ticker ticker exchange), Act.renderGraph,
       Act.fetchCurrent (get_full_ticker ticker exchange),
       Act.sendText (errorReply e)] := by
    simp [StocksCog.price, hA]
  have e5 : FinanceCog.price ticker validLookup (.error e) priceRes capRes =
      [Act.deferReply, Act.validateTicker ticker, Act.fetchHist ticker,
       Act.renderGraph, Act.sendText (errorReply e)] := by
    simp [FinanceCog.price, hF]
  refine ⟨e1, e2, e3, e4, e5, ?_, ?_, ?_, ?_, ?_, ?_, ?_, ?_, rfl, rfl, rfl⟩
  · rw [e1]; simp [List.countP_cons, Act.isReply]
  · rw [e1]; rfl
  · rw [e1]; simp [List.countP_cons, Act.isFetchHist]
  · rw [e3]; simp [List.countP_cons, Act.isReply]
  · rw [e3]; rfl
  · rw [e3]; simp [List.countP_cons, Act.isFetchHist]
  · rw [e5]; simp [List.countP_cons, Act.isReply]
  · rw [e5]; rfl

/-- Witness for claim C8 at concrete arguments with an accepting
validator and a failing download. -/
theorem handlers_catch_all_errors_witness :
    Function.const String true (get_full_ticker "AAPL" "NYSE") = true ∧
    Function.const String true "AAPL" = true ∧
    ([(1 : ℚ)].isEmpty = false) ∧
    (AnalysisCog.bollinger "AAPL" "NYSE" (Function.const String true)
        (.error "network down") (.ok ()) =
      [Act.deferReply, Act.validateTicker (get_full_ticker "AAPL" "NYSE"),
       Act.fetchHist (get_full_ticker "AAPL" "NYSE"),
       Act.sendText (errorReply (fetchFailMsg "network down"))] ∧
     (AnalysisCog.bollingerRun (CogState.mk ()) "AAPL" "NYSE"
        (Function.const String true) (.error "network down") (.ok ())).1 =
       CogState.mk ()) := by
  refine ⟨rfl, rfl, rfl, ?_⟩
  have h := handlers_catch_all_errors (CogState.mk ()) "AAPL" "1mo" "NYSE"
    "network down" (Function.const String true) [(1 : ℚ)] (.ok 0) (.ok 0)
    rfl rfl rfl
  exact ⟨h.1, h.2.2.2.2.2.2.2.2.2.2.2.2.2.2.1⟩

/-- The rolling column at an index inside the series: some window result
when the window is fully populated, NaN otherwise. -/
theorem rollingApply_get? (f : List ℚ → ℚ) (w : ℕ) (xs : List ℚ) (i : ℕ)
    (hi : i < xs.length) :
    (rollingApply f w xs).get? i =
      some (if w ≤ i + 1 then some (f (windowSlice xs w i)) else none) := by
  rw [rollingApply, List.get?_map, List.get?_range hi]
  rfl

/-- A fully populated window has exactly w observations. -/
theorem windowSlice_length (xs : List ℚ) (w i : ℕ) (hi : i < xs.length)
    (hw : w ≤ i + 1) : (windowSlice xs w i).length = w := by
  simp only [windowSlice, List.length_drop, List.length_take]
  omega

/-- Window observations come from the series. -/
theorem mem_windowSlice (xs : List ℚ) (w i : ℕ) (x : ℚ)
    (hx : x ∈ windowSlice xs w i) : x ∈ xs :=
  List.take_subset _ _ (List.drop_subset _ _ hx)

/-- The mean of a nonempty constant series is that constant. -/
theorem seriesMean_const (C : ℚ) (ys : List ℚ) (h : ∀ x ∈ ys, x = C)
    (hne : ys ≠ []) : seriesMean ys = C := by
  have hsum : ys.sum = (ys.length : ℚ) * C := by
    rw [List.sum_eq_card_nsmul ys C h, nsmul_eq_mul]
  have hlen : (ys.length : ℚ) ≠ 0 :=
    Nat.cast_ne_zero.mpr (fun h0 => hne (List.length_eq_zero.mp h0))
  rw [seriesMean, hsum]
  exact mul_div_cancel_left₀ C hlen

/-- The sample variance of a constant series is zero. -/
theorem sampleVar_const (C : ℚ) (ys : List ℚ) (h : ∀ x ∈ ys, x = C) :
    sampleVar ys = 0 := by
  rcases eq_or_ne ys [] with rfl | hne
  · simp [sampleVar]
  · have hm := seriesMean_const C ys h hne
    have hz : (ys.map (fun y => (y - seriesMean ys) ^ 2)).sum = 0 := by
      apply List.sum_eq_zero
      intro x hx
      rcases List.mem_map.mp hx with ⟨y, hy, rfl⟩
      rw [h y hy, hm]
      ring
    simp [sampleVar, hz]

/-- Claim C2: for a constant price series of value C and length at least
20, the band computation yields rolling mean C, rolling sample standard
deviation 0 and upper band equal to lower band equal to C at every fully
populated index, hence in particular at the latest reported index. -/
theorem bollinger_constant_series (C : ℚ) (xs : List ℚ)
    (hconst : ∀ x ∈ xs, x = C) (hlen : 20 ≤ xs.length)
    (i : ℕ) (hi1 : 20 ≤ i + 1) (hi2 : i < xs.length) :
    (computeBands xs).ma.get? i = some (some C) ∧
    (computeBands xs).std.get? i = some (some 0) ∧
    (computeBands xs).upperBand.get? i = some (some (C : ℝ)) ∧
    (computeBands xs).lowerBand.get? i = some (some (C : ℝ)) := by
  have hws : ∀ x ∈ windowSlice xs 20 i, x = C := fun x hx =>
    hconst x (mem_windowSlice xs 20 i x hx)
  have hwne : windowSlice xs 20 i ≠ [] := by
    have hl := windowSlice_length xs 20 i hi2 hi1
    intro h0
    rw [h0] at hl
    simp at hl
  have hmean : seriesMean (windowSlice xs 20 i) = C := seriesMean_const C _ hws hwne
  have hvar : sampleVar (windowSlice xs 20 i) = 0 := sampleVar_const C _ hws
  have hma : (computeBands xs).ma.get? i = some (some C) := by
    show (rollingMean 20 xs).get? i = _
    rw [rollingMean, rollingApply_get? _ _ _ _ hi2, if_pos hi1, hmean]
  have hstd : (computeBands xs).std.get? i = some (some (0 : ℝ)) := by
    show (rollingStd 20 xs).get? i = _
    rw [rollingStd, List.get?_map, rollingVar, rollingApply_get? _ _ _ _ hi2,
      if_pos hi1, hvar]
    simp
  refine ⟨hma, hstd, ?_, ?_⟩
  · show (List.zipWith bandUpper (rollingMean 20 xs) (rollingStd 20 xs)).get? i = _
    rw [List.get?_zipWith']
    have h1 : (rollingMean 20 xs).get? i = some (some C) := hma
    have h2 : (rollingStd 20 xs).get? i = some (some (0 : ℝ)) := hstd
    rw [h1, h2]
    simp [bandUpper]
  · show (List.zipWith bandLower (rollingMean 20 xs) (rollingStd 20 xs)).get? i = _
    rw [List.get?_zipWith']
    have h1 : (rollingMean 20 xs).get? i = some (some C) := hma
    have h2 : (rollingStd 20 xs).get? i = some (some (0 : ℝ)) := hstd
    rw [h1, h2]
    simp [bandLower]

/-- Witness for claim C2 on a constant 20-day series of price 7, at the
single fully populated index 19. -/
theorem bollinger_constant_series_witness :
    (∀ x ∈ List.replicate 20 (7 : ℚ), x = 7) ∧
    20 ≤ (List.replicate 20 (7 : ℚ)).length ∧
    20 ≤ 19 + 1 ∧ 19 < (List.replicate 20 (7 : ℚ)).length ∧
    ((computeBands (List.replicate 20 (7 : ℚ))).ma.get? 19 = some (some 7) ∧
     (computeBands (List.replicate 20 (7 : ℚ))).std.get? 19 = some (some 0) ∧
     (computeBands (List.replicate 20 (7 : ℚ))).upperBand.get? 19 =
       some (some ((7 : ℚ) : ℝ)) ∧
     (computeBands (List.replicate 20 (7 : ℚ))).lowerBand.get? 19 =
       some (some ((7 : ℚ) : ℝ))) := by
  refine ⟨?_, ?_, ?_, ?_, ?_⟩
  · decide
  · decide
  · decide
  · decide
  · exact bollinger_constant_series 7 (List.replicate 20 (7 : ℚ))
      (by decide) (by decide) 19 (by decide) (by decide)

/-- Claim C3: for the input series 1 to 20 with window 20 and k equal to
2, the band computation at the single fully populated index 19 yields
mean exactly 10.5, sample standard deviation the square root of 35
(ddof 1), which lies strictly between 5.916 and 5.917, upper band
10.5 plus twice that root, strictly between 22.33 and 22.34, and lower
band 10.5 minus twice that root, strictly between -1.34 and -1.33. -/
theorem bollinger_series_one_to_twenty :
    (computeBands seriesOneToTwenty).ma.get? 19 = some (some 10.5) ∧
    (computeBands seriesOneToTwenty).std.get? 19 = some (some (Real.sqrt 35)) ∧
    (computeBands seriesOneToTwenty).upperBand.get? 19 =
      some (some (10.5 + Real.sqrt 35 * 2)) ∧
    (computeBands seriesOneToTwenty).lowerBand.get? 19 =
      some (some (10.5 - Real.sqrt 35 * 2)) ∧
    5.916 < Real.sqrt 35 ∧ Real.sqrt 35 < 5.917 ∧
    22.33 < 10.5 + Real.sqrt 35 * 2 ∧ 10.5 + Real.sqrt 35 * 2 < 22.34 ∧
    -1.34 < 10.5 - Real.sqrt 35 * 2 ∧ 10.5 - Real.sqrt 35 * 2 < -1.33 := by
  have hi : 19 < seriesOneToTwenty.length := by
    simp [seriesOneToTwenty]
  have hw : 20 ≤ 19 + 1 := le_refl 20
  have hslice : windowSlice seriesOneToTwenty 20 19 = seriesOneToTwenty := by
    simp [windowSlice, seriesOneToTwenty]
  have hmean : seriesMean seriesOneToTwenty = 10.5 := by
    norm_num [seriesMean, seriesOneToTwenty]
  have hvar : sampleVar seriesOneToTwenty = 35 := by
    simp only [sampleVar, hmean]
    norm_num [seriesOneToTwenty]
  have hma : (computeBands seriesOneToTwenty).ma.get? 19 = some (some 10.5) := by
    show (rollingMean 20 seriesOneToTwenty).get? 19 = _
    rw [rollingMean, rollingApply_get? _ _ _ _ hi, if_pos hw, hslice, hmean]
  have hstd : (computeBands seriesOneToTwenty).std.get? 19 =
      some (some (Real.sqrt 35)) := by
    show (rollingStd 20 seriesOneToTwenty).get? 19 = _
    rw [rollingStd, List.get?_map, rollingVar, rollingApply_get? _ _ _ _ hi,
      if_pos hw, hslice, hvar]
    norm_num
  have hs1 : (5.916 : ℝ) < Real.sqrt 35 :=
    (Real.lt_sqrt (by norm_num)).mpr (by norm_num)
  have hs2 : Real.sqrt 35 < 5.917 :=
    (Real.sqrt_lt' (by norm_num)).mpr (by norm_num)
  refine ⟨hma, hstd, ?_, ?_, hs1, hs2, by linarith, by linarith, by linarith,
    by linarith⟩
  · show (List.zipWith bandUpper (rollingMean 20 seriesOneToTwenty)
      (rollingStd 20 seriesOneToTwenty)).get? 19 = _
    rw [List.get?_zipWith']
    have h1 : (rollingMean 20 seriesOneToTwenty).get? 19 = some (some 10.5) := hma
    have h2 : (rollingStd 20 seriesOneToTwenty).get? 19 =
        some (some (Real.sqrt 35)) := hstd
    rw [h1, h2]
    simp [bandUpper]
  · show (List.zipWith bandLower (rollingMean 20 seriesOneToTwenty)
      (rollingStd 20 seriesOneToTwenty)).get? 19 = _
    rw [List.get?_zipWith']
    have h1 : (rollingMean 20 seriesOneToTwenty).get? 19 = some (some 10.5) := hma
    have h2 : (rollingStd 20 seriesOneToTwenty).get? 19 =
        some (some (Real.sqrt 35)) := hstd
    rw [h1, h2]
    simp [bandLower]

/-- A NaN moving average yields a NaN upper band. -/
theorem bandUpper_none_left (s : Option ℝ) : bandUpper none s = none := by
  cases s <;> rfl

/-- A NaN moving average yields a NaN lower band. -/
theorem bandLower_none_left (s : Option ℝ) : bandLower none s = none := by
  cases s <;> rfl

/-- The upper band of an all-NaN moving average column is all NaN. -/
theorem zipWith_bandUpper_replicate_none (n : ℕ) (ys : List (Option ℝ)) :
    List.zipWith bandUpper (List.replicate n none) ys =
      List.replicate (min n ys.length) none := by
  induction n generalizing ys with
  | zero => simp
  | succ k ih =>
    cases ys with
    | nil => simp
    | cons y ys =>
      simp [List.replicate_succ, bandUpper_none_left, ih ys, Nat.succ_min_succ]

/-- The lower band of an all-NaN moving average column is all NaN. -/
theorem zipWith_bandLower_replicate_none (n : ℕ) (ys : List (Option ℝ)) :
    List.zipWith bandLower (List.replicate n none) ys =
      List.replicate (min n ys.length) none := by
  induction n generalizing ys with
  | zero => simp
  | succ k ih =>
    cases ys with
    | nil => simp
    | cons y ys =>
      simp [List.replicate_succ, bandLower_none_left, ih ys, Nat.succ_min_succ]

/-- Indexing with a default into a replicated list. -/
theorem getD_replicate {α : Type} (a d : α) :
    ∀ n i : ℕ, (List.replicate n a).getD i d = if i < n then a else d := by
  intro n
  induction n with
  | zero => intro i; simp
  | succ k ih =>
    intro i
    cases i with
    | zero => simp [List.replicate_succ]
    | succ j =>
      rw [List.replicate_succ, List.getD_cons_succ, ih j]
      simp [Nat.succ_lt_succ_iff]

/-- Round-half-to-even lands within half a unit of its argument. -/
theorem roundHalfEven_close (y : ℝ) :
    |((roundHalfEven y : ℤ) : ℝ) - y| ≤ 1 / 2 := by
  have hfr : Int.fract y = y - ⌊y⌋ := rfl
  have h0 : (0 : ℝ) ≤ Int.fract y := Int.fract_nonneg y
  have h1 : Int.fract y < 1 := Int.fract_lt_one y
  rw [roundHalfEven]
  split_ifs with hlt hgt hev
  · rw [abs_le]; push_cast; constructor <;> linarith
  · rw [abs_le]; push_cast; constructor <;> linarith
  · rw [abs_le]; push_cast; constructor <;> linarith
  · rw [abs_le]; push_cast; constructor <;> linarith

/-- Rounding to two decimals lands within 1/200 of the raw value. -/
theorem pyRound2_close (x : ℝ) : |pyRound2 x - x| ≤ 1 / 200 := by
  have h := roundHalfEven_close (x * 100)
  rw [abs_le] at h ⊢
  rw [pyRound2]
  constructor <;> [linarith; linarith]

/-- Rounding to two decimals produces a multiple of 1/100. -/
theorem pyRound2_grid (x : ℝ) : ∃ k : ℤ, pyRound2 x = (k : ℝ) / 100 :=
  ⟨roundHalfEven (x * 100), rfl⟩

/-- Shape of the analysis get_bollinger_bands result on a non-empty
series: the latest record holds the rounded last Close and the rounded
last entries of the band columns of the trimmed frame, and the trailing
20 rows are returned for charting. -/
theorem analysis_get_ok (prices : List ℚ) (h : prices.isEmpty = false) :
    AnalysisCog.get_bollinger_bands prices =
      .ok ([("Close",
              some (pyRound2 (((prices.drop (prices.length - 40)).getD
                ((prices.drop (prices.length - 40)).length - 1) 0 : ℚ) : ℝ))),
            ("Upper Band",
              ((computeBands (prices.drop (prices.length - 40))).upperBand.getD
                ((prices.drop (prices.length - 40)).length - 1) none).map pyRound2),
            ("Lower Band",
              ((computeBands (prices.drop (prices.length - 40))).lowerBand.getD
                ((prices.drop (prices.length - 40)).length - 1) none).map pyRound2)],
           frameTail 20 (computeBands (prices.drop (prices.length - 40)))) := by
  rw [AnalysisCog.get_bollinger_bands, if_neg (by simp [h])]

/-- At a fully populated index the upper band is mean plus twice the
sample standard deviation of the window. -/
theorem upperBand_get_populated (xs : List ℚ) (i : ℕ) (hi : i < xs.length)
    (hw : 20 ≤ i + 1) :
    (computeBands xs).upperBand.get? i =
      some (some ((seriesMean (windowSlice xs 20 i) : ℝ) +
        Real.sqrt ((sampleVar (windowSlice xs 20 i) : ℚ) : ℝ) * 2)) := by
  show (List.zipWith bandUpper (rollingMean 20 xs) (rollingStd 20 xs)).get? i = _
  rw [List.get?_zipWith', rollingMean, rollingApply_get? _ _ _ _ hi, if_pos hw,
    rollingStd, List.get?_map, rollingVar, rollingApply_get? _ _ _ _ hi, if_pos hw]
  rfl

/-- At a fully populated index the lower band is mean minus twice the
sample standard deviation of the window. -/
theorem lowerBand_get_populated (xs : List ℚ) (i : ℕ) (hi : i < xs.length)
    (hw : 20 ≤ i + 1) :
    (computeBands xs).lowerBand.get? i =
      some (some ((seriesMean (windowSlice xs 20 i) : ℝ) -
        Real.sqrt ((sampleVar (windowSlice xs 20 i) : ℚ) : ℝ) * 2)) := by
  show (List.zipWith bandLower (rollingMean 20 xs) (rollingStd 20 xs)).get? i = _
  rw [List.get?_zipWith', rollingMean, rollingApply_get? _ _ _ _ hi, if_pos hw,
    rollingStd, List.get?_map, rollingVar, rollingApply_get? _ _ _ _ hi, if_pos hw]
  rfl

/-- Every column of the computed frame has the length of the series. -/
theorem computeBands_lengths (xs : List ℚ) :
    (computeBands xs).close.length = xs.length ∧
    (computeBands xs).ma.length = xs.length ∧
    (computeBands xs).std.length = xs.length ∧
    (computeBands xs).upperBand.length = xs.length ∧
    (computeBands xs).lowerBand.length = xs.length := by
  refine ⟨rfl, ?_, ?_, ?_, ?_⟩ <;>
    simp [computeBands, rollingMean, rollingVar, rollingStd, rollingApply]

/-- Claim C1 evaluated on the code: the Bollinger computation has no
window-length check, only an emptiness check, so on a non-empty constant
series of 19 days (shorter than the 20-day window) it does not fail with
an insufficient-data error but returns a latest record whose Upper Band
and Lower Band values are NaN, and the FinanceCog variant likewise
returns a displayable row with NaN bands. -/
theorem bollinger_short_series_returns_nan :
    (∃ latest fr,
      AnalysisCog.get_bollinger_bands (List.replicate 19 1) = .ok (latest, fr) ∧
      latest.lookup "Upper Band" = some none ∧
      latest.lookup "Lower Band" = some none ∧
      latest.lookup "Close" = some (some (pyRound2 ((1 : ℚ) : ℝ)))) ∧
    FinanceCog.get_bollinger_bands (List.replicate 19 1) =
      some (1, none, none) := by
  have hm : rollingMean 20 (List.replicate 19 (1 : ℚ)) = List.replicate 19 none := by
    decide
  have hv : rollingVar 20 (List.replicate 19 (1 : ℚ)) = List.replicate 19 none := by
    decide
  have hs : rollingStd 20 (List.replicate 19 (1 : ℚ)) = List.replicate 19 none := by
    rw [rollingStd, hv]
    simp
  have hup : (computeBands (List.replicate 19 (1 : ℚ))).upperBand =
      List.replicate 19 none := by
    show List.zipWith bandUpper (rollingMean 20 (List.replicate 19 (1 : ℚ)))
      (rollingStd 20 (List.replicate 19 (1 : ℚ))) = _
    rw [hm, hs, zipWith_bandUpper_replicate_none]
    simp
  have hlo : (computeBands (List.replicate 19 (1 : ℚ))).lowerBand =
      List.replicate 19 none := by
    show List.zipWith bandLower (rollingMean 20 (List.replicate 19 (1 : ℚ)))
      (rollingStd 20 (List.replicate 19 (1 : ℚ))) = _
    rw [hm, hs, zipWith_bandLower_replicate_none]
    simp
  have hdrop : (List.replicate 19 (1 : ℚ)).drop
      ((List.replicate 19 (1 : ℚ)).length - 40) = List.replicate 19 (1 : ℚ) := by
    simp
  have hmain := analysis_get_ok (List.replicate 19 (1 : ℚ)) (by decide)
  rw [hdrop] at hmain
  simp only [hup, hlo, List.length_replicate, getD_replicate] at hmain
  norm_num at hmain
  constructor
  · refine ⟨_, _, hmain, ?_, ?_, ?_⟩ <;> simp [List.lookup]
  · have h1 : (List.replicate 19 (1 : ℚ)).getD (19 - 1) 0 = 1 := by
      rw [getD_replicate, if_pos (by norm_num)]
    have h2 : (computeBands (List.replicate 19 (1 : ℚ))).upperBand.getD
        (19 - 1) none = none := by
      rw [hup, getD_replicate]
      exact ite_self none
    have h3 : (computeBands (List.replicate 19 (1 : ℚ))).lowerBand.getD
        (19 - 1) none = none := by
      rw [hlo, getD_replicate]
      exact ite_self none
    rw [FinanceCog.get_bollinger_bands, if_neg (by decide)]
    show some ((List.replicate 19 (1 : ℚ)).getD
        ((List.replicate 19 (1 : ℚ)).length - 1) 0,
      (computeBands (List.replicate 19 (1 : ℚ))).upperBand.getD
        ((List.replicate 19 (1 : ℚ)).length - 1) none,
      (computeBands (List.replicate 19 (1 : ℚ))).lowerBand.getD
        ((List.replicate 19 (1 : ℚ)).length - 1) none) = some (1, none, none)
    rw [List.length_replicate, h1, h2, h3]

/-- Claim C7 counterexample: at a concrete 20-day series the latest
record produced by the code carries exactly the keys Close, Upper Band
and Lower Band; it has three fields, and no moving-average field, so the
latest result does not contain all four claimed fields. -/
theorem latest_result_lacks_ma_field :
    (AnalysisCog.get_bollinger_bands (List.replicate 20 1)).toOption.map
        (fun p => p.1.map Prod.fst) =
      some ["Close", "Upper Band", "Lower Band"] ∧
    (AnalysisCog.get_bollinger_bands (List.replicate 20 1)).toOption.map
        (fun p => p.1.lookup "MA") = some none ∧
    (AnalysisCog.get_bollinger_bands (List.replicate 20 1)).toOption.map
        (fun p => p.1.length) = some 3 := by
  have h := analysis_get_ok (List.replicate 20 (1 : ℚ)) (by decide)
  rw [h]
  refine ⟨rfl, ?_, rfl⟩
  simp [Except.toOption, List.lookup]

/-- Claim C7 (amended): for a series of length at least 20 the Bollinger
computation succeeds with a latest record whose fields are exactly
closing price, upper band and lower band, each equal to the
two-decimal rounding of the corresponding column at the most recent
index of the trimmed frame, which is fully populated; the trailing 20
rows of the computed frame are returned for charting, and the rounding
function maps every value to a multiple of 1/100 within 1/200 of it. -/
theorem latest_result_three_fields_rounded (prices : List ℚ)
    (hlen : 20 ≤ prices.length) :
    ∃ latest fr,
      AnalysisCog.get_bollinger_bands prices = .ok (latest, fr) ∧
      latest.map Prod.fst = ["Close", "Upper Band", "Lower Band"] ∧
      latest.lookup "Close" = some (some (pyRound2
        (((prices.drop (prices.length - 40)).getD
          ((prices.drop (prices.length - 40)).length - 1) 0 : ℚ) : ℝ))) ∧
      latest.lookup "Upper Band" = some
        (((computeBands (prices.drop (prices.length - 40))).upperBand.getD
          ((prices.drop (prices.length - 40)).length - 1) none).map pyRound2) ∧
      latest.lookup "Lower Band" = some
        (((computeBands (prices.drop (prices.length - 40))).lowerBand.getD
          ((prices.drop (prices.length - 40)).length - 1) none).map pyRound2) ∧
      (∃ u, (computeBands (prices.drop (prices.length - 40))).upperBand.getD
          ((prices.drop (prices.length - 40)).length - 1) none = some u) ∧
      (∃ w, (computeBands (prices.drop (prices.length - 40))).lowerBand.getD
          ((prices.drop (prices.length - 40)).length - 1) none = some w) ∧
      fr = frameTail 20 (computeBands (prices.drop (prices.length - 40))) ∧
      fr.close.length = 20 ∧ fr.ma.length = 20 ∧
      fr.upperBand.length = 20 ∧ fr.lowerBand.length = 20 ∧
      (∀ x : ℝ, (∃ k : ℤ, pyRound2 x = (k : ℝ) / 100) ∧
        |pyRound2 x - x| ≤ 1 / 200) := by
  have hne : prices.isEmpty = false := by
    cases prices with
    | nil => simp at hlen
    | cons p ps => rfl
  have htr : (prices.drop (prices.length - 40)).length =
      prices.length - (prices.length - 40) := List.length_drop _ _
  have hm20 : 20 ≤ (prices.drop (prices.length - 40)).length := by
    rw [htr]
    omega
  have hi : (prices.drop (prices.length - 40)).length - 1 <
      (prices.drop (prices.length - 40)).length := by omega
  have hw : 20 ≤ ((prices.drop (prices.length - 40)).length - 1) + 1 := by omega
  have hupP := upperBand_get_populated (prices.drop (prices.length - 40)) _ hi hw
  have hloP := lowerBand_get_populated (prices.drop (prices.length - 40)) _ hi hw
  have hupD : (computeBands (prices.drop (prices.length - 40))).upperBand.getD
      ((prices.drop (prices.length - 40)).length - 1) none =
      some ((seriesMean (windowSlice (prices.drop (prices.length - 40)) 20
          ((prices.drop (prices.length - 40)).length - 1)) : ℝ) +
        Real.sqrt ((sampleVar (windowSlice (prices.drop (prices.length - 40)) 20
          ((prices.drop (prices.length - 40)).length - 1)) : ℚ) : ℝ) * 2) := by
    rw [List.getD_eq_getD_get?, hupP]
    rfl
  have hloD : (computeBands (prices.drop (prices.length - 40))).lowerBand.getD
      ((prices.drop (prices.length - 40)).length - 1) none =
      some ((seriesMean (windowSlice (prices.drop (prices.length - 40)) 20
          ((prices.drop (prices.length - 40)).length - 1)) : ℝ) -
        Real.sqrt ((sampleVar (windowSlice (prices.drop (prices.length - 40)) 20
          ((prices.drop (prices.length - 40)).length - 1)) : ℚ) : ℝ) * 2) := by
    rw [List.getD_eq_getD_get?, hloP]
    rfl
  have hlensC := computeBands_lengths (prices.drop (prices.length - 40))
  have hmain := analysis_get_ok prices hne
  refine ⟨_, _, hmain, rfl, ?_, ?_, ?_, ⟨_, hupD⟩, ⟨_, hloD⟩, rfl, ?_, ?_, ?_, ?_,
    fun x => ⟨pyRound2_grid x, pyRound2_close x⟩⟩
  · simp [List.lookup]
  · simp [List.lookup]
  · simp [List.lookup]
  · show ((computeBands (prices.drop (prices.length - 40))).close.drop _).length = 20
    rw [List.length_drop, hlensC.1]
    omega
  · show ((computeBands (prices.drop (prices.length - 40))).ma.drop _).length = 20
    rw [List.length_drop, hlensC.2.1]
    omega
  · show ((computeBands (prices.drop (prices.length - 40))).upperBand.drop _).length = 20
    rw [List.length_drop, hlensC.2.2.2.1]
    omega
  · show ((computeBands (prices.drop (prices.length - 40))).lowerBand.drop _).length = 20
    rw [List.length_drop, hlensC.2.2.2.2]
    omega

/-- Witness for claim C7 on a constant 25-day series of price 3. -/
theorem latest_result_three_fields_rounded_witness :
    20 ≤ (List.replicate 25 (3 : ℚ)).length ∧
    (∃ latest fr,
      AnalysisCog.get_bollinger_bands (List.replicate 25 (3 : ℚ)) =
        .ok (latest, fr) ∧
      latest.map Prod.fst = ["Close", "Upper Band", "Lower Band"]) := by
  refine ⟨by decide, ?_⟩
  obtain ⟨latest, fr, h1, h2, -⟩ :=
    latest_result_three_fields_rounded (List.replicate 25 (3 : ℚ)) (by decide)
  exact ⟨latest, fr, h1, h2⟩
